import Mathlib

/-!
# Verification of the MetEd template generator (lesson-authoring wizard)

Shallow embedding of the TypeScript sources:

* `src/src/pages/LessonBuilder.tsx` — the `LatestCorePhpGenerator` class
  (template-variable resolver, conditional-block substitution, per-unit
  print-file generation, package assembly),
* `src/unnamed/part_001` — the content-pages form (`handleAddPage`,
  `handleDeletePage`, `handleJsonImport`, `convertMenuToPages`),
* `src/unnamed/part_004` — the `LessonConfig` / `LessonPage` data model.

Strings are modelled by Lean `String` (a wrapped `List Char`); JavaScript
runtime errors that the source can raise (calling `.trim()` on a value that
is not a string) are modelled by `Except JsError`.  The wall clock enters
the code only through `new Date().getFullYear()`, modelled as an explicit
`currentYear : Nat` argument.
-/

/-- A JavaScript runtime exception.  The only one the modelled code can
raise is a `TypeError` (property access on `null`, or calling `.trim()` on
a number or on `undefined`). -/
inductive JsError : Type where
  | typeError : JsError
deriving DecidableEq, Repr

/-- JavaScript `String.prototype.trim` on a list of characters: removes
whitespace from both ends. -/
def jsTrimChars (s : List Char) : List Char :=
  ((s.dropWhile Char.isWhitespace).reverse.dropWhile Char.isWhitespace).reverse

/-- JavaScript `String.prototype.trim` on a `String`. -/
def jsTrim (s : String) : String :=
  String.mk (jsTrimChars s.data)

/-- `LessonPage` from `src/unnamed/part_004` (interface `LessonPage`):
id, title, content, description, order, type, level, parentId, children,
page identifier (like "1-0-0"), innerNode flag.  The `children` field nests
pages, so this is an inductive type rather than a structure. -/
inductive LessonPage : Type where
  | mk
    (id : String)
    (title : String)
    (content : String)
    (description : String)
    (order : Nat)
    (type : String)
    (level : Nat)
    (parentId : Option String)
    (children : List LessonPage)
    (page : Option String)
    (innerNode : Bool) : LessonPage

def LessonPage.id : LessonPage → String
  | .mk i _ _ _ _ _ _ _ _ _ _ => i

def LessonPage.title : LessonPage → String
  | .mk _ t _ _ _ _ _ _ _ _ _ => t

def LessonPage.content : LessonPage → String
  | .mk _ _ c _ _ _ _ _ _ _ _ => c

def LessonPage.description : LessonPage → String
  | .mk _ _ _ d _ _ _ _ _ _ _ => d

def LessonPage.order : LessonPage → Nat
  | .mk _ _ _ _ o _ _ _ _ _ _ => o

def LessonPage.type : LessonPage → String
  | .mk _ _ _ _ _ ty _ _ _ _ _ => ty

def LessonPage.level : LessonPage → Nat
  | .mk _ _ _ _ _ _ l _ _ _ _ => l

def LessonPage.parentId : LessonPage → Option String
  | .mk _ _ _ _ _ _ _ p _ _ _ => p

def LessonPage.children : LessonPage → List LessonPage
  | .mk _ _ _ _ _ _ _ _ ch _ _ => ch

def LessonPage.page : LessonPage → Option String
  | .mk _ _ _ _ _ _ _ _ _ pg _ => pg

def LessonPage.innerNode : LessonPage → Bool
  | .mk _ _ _ _ _ _ _ _ _ _ n => n

/-- Replace the `title` field of a page. -/
def LessonPage.withTitle : LessonPage → String → LessonPage
  | .mk i _ c d o ty l p ch pg n, t => .mk i t c d o ty l p ch pg n

/-- Replace the `content` field of a page. -/
def LessonPage.withContent : LessonPage → String → LessonPage
  | .mk i t _ d o ty l p ch pg n, c => .mk i t c d o ty l p ch pg n

/-- Replace the `children` field of a page. -/
def LessonPage.withChildren : LessonPage → List LessonPage → LessonPage
  | .mk i t c d o ty l p _ pg n, ch => .mk i t c d o ty l p ch pg n

/-- The fields of `LessonConfig` (`src/unnamed/part_004`) that the modelled
functions read: `language`, `lessonTitle`, `lessonId`, `description`,
`keywords`, the optional `customCopyrightYear` override, and the ordered
`pages` collection.  The remaining metadata and feature-flag fields are
never read by the generator, the page operations or the import, so they
are omitted from the embedding. -/
structure LessonConfig : Type where
  language : String
  lessonTitle : String
  lessonId : String
  description : String
  keywords : String
  customCopyrightYear : Option String
  pages : List LessonPage

/-- A TypeScript `string | number` value, as stored in the template
variables record. -/
inductive StrNum : Type where
  | str (s : String)
  | num (n : Nat)
deriving DecidableEq, Repr

/-- JavaScript `String(value)` on a `string | number` value. -/
def StrNum.toJsString : StrNum → String
  | .str s => s
  | .num n => toString n

/-- The record returned by `getTemplateVariables`
(`LessonBuilder.tsx` lines 543-557). -/
structure TemplateVariables : Type where
  lessonTitle : String
  lessonDesc : String
  lessonKeys : String
  lessonID : StrNum
  lessonPath : String
  copyrightYear : Nat
  splashImageCredit : String
  lessonLang : String
  templateType : String
deriving DecidableEq, Repr

/-- `getTemplateVariables` (`LessonBuilder.tsx` lines 543-557).  A JS
`x || fallback` on a string field selects the fallback exactly when the
string is empty.  `currentYear` models `new Date().getFullYear()`. -/
def getTemplateVariables (config : LessonConfig) (currentYear : Nat) :
    TemplateVariables where
  lessonTitle := if config.lessonTitle = "" then "Untitled Lesson" else config.lessonTitle
  lessonDesc :=
    if config.description = "" then "MetEd lesson created with the lesson generator"
    else config.description
  lessonKeys :=
    if config.keywords = "" then "meteorology, education, training" else config.keywords
  lessonID := if config.lessonId = "" then .num 0 else .str config.lessonId
  lessonPath := "/"
  copyrightYear := currentYear
  splashImageCredit := ""
  lessonLang := if config.language = "" then "EN" else config.language
  templateType := "multi-print"

/-- `getLangCode` (`LessonBuilder.tsx` lines 559-565). -/
def getLangCode (config : LessonConfig) : String :=
  if config.language = "ES" then "es"
  else if config.language = "FR" then "fr"
  else "en"

/-- `getProducedByText` (`LessonBuilder.tsx` lines 567-573). -/
def getProducedByText (config : LessonConfig) : String :=
  if config.language = "ES" then "Producido por The COMET® Program"
  else if config.language = "FR" then "Produit par le programme COMET®"
  else "Produced by The COMET&reg; Program"

/-- `getAllRightsReservedText` (`LessonBuilder.tsx` lines 575-581). -/
def getAllRightsReservedText (config : LessonConfig) : String :=
  if config.language = "ES" then "Reservados todos los derechos."
  else if config.language = "FR" then "Tous droits réservés."
  else "All Rights Reserved."

/-- `getLegalNoticesText` (`LessonBuilder.tsx` lines 583-589). -/
def getLegalNoticesText (config : LessonConfig) : String :=
  if config.language = "ES" then "Avisos legales"
  else if config.language = "FR" then "Mentions juridiques"
  else "Legal notices"

/-- `getLegalNoticesUrl` (`LessonBuilder.tsx` lines 591-597). -/
def getLegalNoticesUrl (config : LessonConfig) : String :=
  if config.language = "ES" then "https://meted.ucar.edu/legal_es.htm"
  else if config.language = "FR" then "https://meted.ucar.edu/legal.htm"
  else "https://meted.ucar.edu/legal.htm"

/-- `getBackToTopText` (`LessonBuilder.tsx` lines 599-605). -/
def getBackToTopText (config : LessonConfig) : String :=
  if config.language = "ES" then "Arriba"
  else if config.language = "FR" then "Haut de la page"
  else "Back to Top"


/-! ## The generated unit print file (`generateUnitPrintContent`, lines 355-473)

The TypeScript template literal is transcribed as a concatenation of
constant segments with the interpolated expressions spliced between them,
in source order.  `page.title` is spliced four times (banner link, table
of contents link, section heading, placeholder text); `page.content` is
never used. -/

def unitPrintSeg0 : String :=
  "<?php\nrequire_once( \x27cometAPI.inc.php\x27 );\n$mm = new MediaItemManager();\n?>\n<!doctype html>\n<html lang=\""

def unitPrintSeg1 : String := "\">\n<head>\n    <title>"

def unitPrintSeg2 : String :=
  "</title>\n    <meta content=\"text/html; charset=UTF-8\" http-equiv=\"content-type\">\n    <meta name=\"author\" content=\"UCAR/COMET\">\n    <meta name=\"dcterms.rightsHolder\" content=\"UCAR/COMET\">\n    <meta name=\"robots\" content=\"all\">\n    <meta name=\"Description\" content=\""

def unitPrintSeg3 : String := "\">\n    <meta name=\"keywords\" content=\""

def unitPrintSeg4 : String :=
  "\">\n    <meta name=\"viewport\" content=\"width=device-width\">\n    <meta name=\"viewport\" content=\"initial-scale=1.0\">\n<!-- =CORE TAGS START= -->\n    <link rel=\"stylesheet\" type=\"text/css\" media=\"screen\" href=\"bootstrap/css/bootstrap.min.css\">\n    <link rel=\"stylesheet\" type=\"text/css\" media=\"screen\" href=\"jquery/jquery-ui.min.css\">\n    <link rel=\"stylesheet\" type=\"text/css\" media=\"screen\" href=\"css/meted-base.min.css\">\n    <script src=\"jquery/jquery.min.js\"></script>\n    <script src=\"jquery/jquery-ui.min.js\"></script>\n    <script src=\"jquery/jquery-plugins.min.js\"></script>\n    <script src=\"bootstrap/js/bootstrap.min.js\"></script>\n    <script src=\"modernizr/modernizr.min.js\"></script>\n    <link rel=\"stylesheet\" type=\"text/css\" media=\"print\" href=\"css/module-print.css\">\n    <script src=\"jquery/defaults.js\"></script>\n<!-- =CORE TAGS END= -->\n    <script>\n    var printVersion = true;\n    </script>\n    <!--[if lte IE 9]><script type=\"text/javascript\" src=\"jquery/apps/draw/excanvas.js\"></script><script type=\"text/javascript\" src=\"ie-support/respond.js\"></script><link rel=\"stylesheet\" type=\"text/css\" media=\"screen\" href=\"ie-support/ie-support.css\" /><![endif]-->\n</head>\n\n<body>\n    <!-- MODULE WRAPPER (container) ==================================-->\n    <main id=\"module-wrapper\" class=\"container\">\n        <div class=\"row\">\n            <header id=\"module-topbanner\">\n                <a id=\"module-title\" class=\"module-title-text\" href=\"index.htm\">"

def unitPrintSeg5 : String :=
  "</a>\n                <h3 id=\"module-credit\" class=\"hidden-sm hidden-xs\">\n                    "

def unitPrintSeg6 : String :=
  "\n                </h3>\n            </header>\n        </div>\n\n        <div class=\"row\">\n            <!-- TABLE OF CONTENTS ==================================-->\n            <nav id=\"tableofcontents\" class=\"sidebar-toc\">\n                <ul class=\"nav lc-docs-sidenav\">\n                    <li><a href=\"#page_"

def unitPrintSeg7 : String := "-0-0\">"

def unitPrintSeg8 : String :=
  "</a></li>\n                    <li><a href=\"#page_contributors\">Contributors</a></li>\n                </ul>\n            </nav>\n\n            <!-- MODULE CONTENT ==================================-->\n            <div id=\"module-content\" class=\"col-md-9\">\n                <div class=\"row unit-header\"></div>\n                <section id=\"page_"

def unitPrintSeg9 : String := "-0-0\" class=\"page\">\n                    <h3>"

def unitPrintSeg10 : String :=
  "</h3>\n                    \n                    <!-- Unit content will be added here by the content management system -->\n                    "

def contentPlaceholderOpen : String :=
  "<div class=\"unit-content-placeholder\">\n                        <div class=\"alert alert-info\">\n                            <h4>Content Placeholder</h4>\n                            <p>This unit is ready for content to be added through your content management system.</p>\n                            <p><strong>Unit:</strong> "

def contentPlaceholderClose : String :=
  "</p>\n                        </div>\n                    </div>"

/-- The fixed content placeholder block (source lines 420-426); the only
page-dependent datum inside it is the unit title — the authored
`page.content` never appears. -/
def contentPlaceholderHtml (unitTitle : String) : String :=
  contentPlaceholderOpen ++ unitTitle ++ contentPlaceholderClose

def unitPrintSeg11 : String :=
  "\n                </section>\n                \n                <section id=\"page_contributors\" class=\"page\">\n                    <h3>Contributors</h3>\n                    <p>Content contributors and acknowledgments will be listed here.</p>\n                </section>\n            </div>\n            <!-- END MODULE CONTENT ==============================-->\n        </div>\n\n    <!-- MODULE FOOTER ==================================-->\n    <footer id=\"module-footer\" class=\"row\">\n        <div class=\"col-md-10 col-sm-12\">\n            <p class=\"footer-text\">&copy; "

def unitPrintSeg12 : String :=
  ", <a href=\"https://www.ucar.edu/\">The University Corporation for Atmospheric Research</a><br>"

def unitPrintSeg13 : String := " <a href=\""

def unitPrintSeg14 : String := "\">"

def unitPrintSeg15 : String :=
  "</a></p>\n        </div>\n        <div class=\"col-md-2 hidden-sm hidden-xs\">\n            <ul class=\"footer-links list-unstyled\">\n                <li><a href=\"https://www.meted.ucar.edu/\"><span class=\"glyphicon glyphicon-link\"></span>MetEd</a></li>\n                <li><a href=\"https://comet.ucar.edu\"><span class=\"glyphicon glyphicon-link\"></span>COMET</a></li>\n            </ul>\n        </div>\n    </footer>\n    <!-- END MODULE FOOTER ==================================-->\n\n    </main>\n    <!-- END MODULE WRAPPER (container) ==================================-->\n\n    <!-- BACK TO TOP BUTTON =========================== -->\n    <p class=\"back-top\">\n        <a href=\"#top\"><span class=\"glyphicon glyphicon-upload\"></span>"

def unitPrintSeg16 : String :=
  "</a>\n    </p>\n\n    <!-- MODAL PROMPTS ======================== -->\n    <div id=\"quiz-prompt\"></div>\n\n    <!-- PRINT STYLES SCRIPT ==========================-->\n    <script>\n    $(document).ready(function() \x7b\n        // Remove all media stylesheets\n        $(\x27link[media~=\"screen\"]\x27).remove();\n        // Convert print stylesheet to all-media\n        $(\x27link[media~=\"print\"]\x27).attr(\x27media\x27, \x27all\x27);\n    \x7d);\n    </script>\n</body>\n</html>"

/-- `generateUnitPrintContent` (`LessonBuilder.tsx` lines 355-473): the
procedurally generated per-unit PHP print page.  `currentYear` models
`new Date().getFullYear()` read inside `getTemplateVariables`. -/
def generateUnitPrintContent (config : LessonConfig) (page : LessonPage)
    (unitNumber : Nat) (currentYear : Nat) : String :=
  let tv := getTemplateVariables config currentYear
  unitPrintSeg0 ++ getLangCode config
    ++ unitPrintSeg1 ++ tv.lessonTitle
    ++ unitPrintSeg2 ++ tv.lessonDesc
    ++ unitPrintSeg3 ++ tv.lessonKeys
    ++ unitPrintSeg4 ++ page.title
    ++ unitPrintSeg5 ++ getProducedByText config
    ++ unitPrintSeg6 ++ toString unitNumber
    ++ unitPrintSeg7 ++ page.title
    ++ unitPrintSeg8 ++ toString unitNumber
    ++ unitPrintSeg9 ++ page.title
    ++ unitPrintSeg10 ++ contentPlaceholderHtml page.title
    ++ unitPrintSeg11 ++ toString tv.copyrightYear
    ++ unitPrintSeg12 ++ getAllRightsReservedText config
    ++ unitPrintSeg13 ++ getLegalNoticesUrl config
    ++ unitPrintSeg14 ++ getLegalNoticesText config
    ++ unitPrintSeg15 ++ getBackToTopText config
    ++ unitPrintSeg16

/-- The indexed loop body of `generateUnitPrintFiles` (lines 344-353):
`pages.forEach((page, index) => zip.file(print_(index+1).php, content))`.
Note the loop runs over the whole (flat) `config.pages` collection. -/
def generateUnitPrintFilesGo (config : LessonConfig) (currentYear : Nat) :
    List LessonPage → Nat → List (String × String)
  | [], _ => []
  | page :: rest, index =>
    ("print_" ++ toString (index + 1) ++ ".php",
      generateUnitPrintContent config page (index + 1) currentYear)
      :: generateUnitPrintFilesGo config currentYear rest (index + 1)

/-- `generateUnitPrintFiles` (`LessonBuilder.tsx` lines 344-353): one
`print_<index+1>.php` file per entry of `config.pages`. -/
def generateUnitPrintFiles (config : LessonConfig) (currentYear : Nat) :
    List (String × String) :=
  generateUnitPrintFilesGo config currentYear config.pages 0

/-! ## Regex-replace modelling

The source performs all template substitution with JavaScript
`String.replace(regexp, fn)` over literal delimiters and lazy `[\s\S]*?`
gaps.  We model this by leftmost-shortest scanning over `List Char`:
a lazy gap between two literal delimiters matches the text up to the first
occurrence of the next delimiter.  This coincides with the JavaScript
regex engine on every template in which the branch bodies do not

themselves contain the marker delimiters (the engine would additionally
backtrack on such pathological inputs).  The replace loops are written
with an explicit fuel argument (`length + 1` is always sufficient, since
every match consumes at least the nonempty delimiters); fuel exhaustion
returns the remaining text unchanged. -/

/-- Split `s` around the first occurrence of `pat`: returns the text
before the match and the text after it. -/
def splitFirst (pat : List Char) : List Char → Option (List Char × List Char)
  | [] => if pat.isPrefixOf [] then some ([], []) else none
  | c :: rest =>
    if pat.isPrefixOf (c :: rest) then some ([], (c :: rest).drop pat.length)
    else
      match splitFirst pat rest with
      | some (before, after) => some (c :: before, after)
      | none => none

/-- One match of the four-delimiter language-conditional pattern
`d1 [\s\S]*? d2 [\s\S]*? d3 [\s\S]*? d4`: returns the text before the
match, the three lazy-gap bodies, and the text after the match. -/
def matchCondBlock (d1 d2 d3 d4 : List Char) (s : List Char) :
    Option (List Char × List Char × List Char × List Char × List Char) :=
  match splitFirst d1 s with
  | none => none
  | some (pre, r1) =>
    match splitFirst d2 r1 with
    | none => none
    | some (esBody, r2) =>
      match splitFirst d3 r2 with
      | none => none
      | some (frBody, r3) =>
        match splitFirst d4 r3 with
        | none => none
        | some (enBody, rest) => some (pre, esBody, frBody, enBody, rest)

/-- The replacement callback of `processLanguageConditionals`
(lines 501-507 and 513-519).  The regex has NO capture groups, so
JavaScript calls the function with `(match, offset, string)`; the
destructuring `(_, esContent, frContent, enContent)` therefore binds
`esContent` to the numeric offset, `frContent` to the whole subject
string, and `enContent` to `undefined`.  `switch (lang)`:
`'ES'` calls `.trim()` on a number (TypeError), `'FR'` calls `.trim()` on
the whole subject string, and the default branch calls `.trim()` on
`undefined` (TypeError). -/
def langConditionalCallback (lang : String) (_offset : Nat)
    (whole : List Char) : Except JsError (List Char) :=
  if lang = "ES" then .error .typeError
  else if lang = "FR" then .ok (jsTrimChars whole)
  else .error .typeError

/-- The global-replace loop for one language-conditional regex: find each
match left to right, splice in the callback result, and continue after the
match.  `whole` is the full subject string passed as the callback's last
argument; `fuel` bounds the number of matches processed. -/
def langReplaceGo (lang : String) (d1 d2 d3 d4 whole : List Char) :
    Nat → List Char → Except JsError (List Char)
  | 0, s => .ok s
  | fuel + 1, s =>
    match matchCondBlock d1 d2 d3 d4 s with
    | none => .ok s
    | some (pre, _esBody, _frBody, _enBody, rest) =>
      match langConditionalCallback lang (pre.length) whole with
      | .error e => .error e
      | .ok replacement =>
        match langReplaceGo lang d1 d2 d3 d4 whole fuel rest with
        | .error e => .error e
        | .ok tail => .ok (pre ++ replacement ++ tail)

/-- One `content.replace(languageRegex, callback)` call. -/
def langReplacePass (lang : String) (d1 d2 d3 d4 : List Char)
    (content : List Char) : Except JsError (List Char) :=
  langReplaceGo lang d1 d2 d3 d4 content (content.length + 1) content

/-- Delimiters of the first language-conditional regex (line 500):
`<% if (lessonLang === 'ES') { %> … <% } else if (lessonLang === 'FR') { %> … <% } else { %> … <% } %>`. -/
def langDelim1A : List Char := "<% if (lessonLang === \x27ES\x27) \x7b %>".data

def langDelim2A : List Char := "<% \x7d else if (lessonLang === \x27FR\x27) \x7b %>".data

def langDelimElse : List Char := "<% \x7d else \x7b %>".data

def langDelimEnd : List Char := "<% \x7d %>".data

/-- Delimiters of the second, "simpler" language-conditional regex
(line 512): same shape with `lessonLang==='ES' )` spacing. -/
def langDelim1B : List Char := "<% if (lessonLang===\x27ES\x27 ) \x7b %>".data

def langDelim2B : List Char := "<% \x7d else if (lessonLang===\x27FR\x27 ) \x7b %>".data

/-- `processLanguageConditionals` (`LessonBuilder.tsx` lines 495-523):
`const lang = this.config.language || 'EN'`, then the two global replaces
in sequence.  A thrown TypeError aborts the whole substitution. -/
def processLanguageConditionals (language : String) (content : String) :
    Except JsError String :=
  let lang := if language = "" then "EN" else language
  match langReplacePass lang langDelim1A langDelim2A langDelimElse langDelimEnd
      content.data with
  | .error e => .error e
  | .ok s1 =>
    match langReplacePass lang langDelim1B langDelim2B langDelimElse langDelimEnd s1 with
    | .error e => .error e
    | .ok s2 => .ok (String.mk s2)

/-- One match of a two-delimiter pattern `d1 ([\s\S]*?) d2`: text before,
the captured body, text after. -/
def matchCaptureBlock (d1 d2 : List Char) (s : List Char) :
    Option (List Char × List Char × List Char) :=
  match splitFirst d1 s with
  | none => none
  | some (pre, r1) =>
    match splitFirst d2 r1 with
    | none => none
    | some (body, rest) => some (pre, body, rest)

/-- Global-replace loop for the first template-type regex (lines 526-531):
every `<% if (templateType==='multi-print' || templateType==='articulate-shell' ) { %> … <% } %>`
block is replaced by its trimmed body (the capture group works here). -/
def typeKeepReplaceGo (d1 d2 : List Char) : Nat → List Char → List Char
  | 0, s => s
  | fuel + 1, s =>
    match matchCaptureBlock d1 d2 s with
    | none => s
    | some (pre, body, rest) =>
      pre ++ jsTrimChars body ++ typeKeepReplaceGo d1 d2 fuel rest

/-- One match of a three-delimiter pattern `d1 ([\s\S]*?) d2 ([\s\S]*?) d3`:
text before, the two captured bodies, text after. -/
def matchElseBlock (d1 d2 d3 : List Char) (s : List Char) :
    Option (List Char × List Char × List Char × List Char) :=
  match splitFirst d1 s with
  | none => none
  | some (pre, r1) =>
    match splitFirst d2 r1 with
    | none => none
    | some (body1, r2) =>
      match splitFirst d3 r2 with
      | none => none
      | some (body2, rest) => some (pre, body1, body2, rest)

/-- Global-replace loop for the second template-type regex (lines 533-538):
`<% if (templateType==='articulate-shell' ) { %> x <% } else { %> y <% } %>`
is replaced by the trimmed second capture `y` (the articulate branch is
always discarded). -/
def typeElseReplaceGo (d1 d2 d3 : List Char) : Nat → List Char → List Char
  | 0, s => s
  | fuel + 1, s =>
    match matchElseBlock d1 d2 d3 s with
    | none => s
    | some (pre, _artBody, regularBody, rest) =>
      pre ++ jsTrimChars regularBody ++ typeElseReplaceGo d1 d2 d3 fuel rest

def typeDelimKeepOpen : List Char :=
  "<% if (templateType===\x27multi-print\x27 || templateType===\x27articulate-shell\x27 ) \x7b %>".data

def typeDelimArtOpen : List Char :=
  "<% if (templateType===\x27articulate-shell\x27 ) \x7b %>".data

/-- `processTemplateTypeConditionals` (`LessonBuilder.tsx` lines 525-541):
the two total global replaces in sequence. -/
def processTemplateTypeConditionals (content : String) : String :=
  let s1 := typeKeepReplaceGo typeDelimKeepOpen langDelimEnd
    (content.data.length + 1) content.data
  let s2 := typeElseReplaceGo typeDelimArtOpen langDelimElse langDelimEnd
    (s1.length + 1) s1
  String.mk s2

/-- Try to match the token regex `<%=\s*key\s*%>` at the beginning of `s`;
on success return the remainder of `s` after the token. -/
def matchTokenAt (key : List Char) (s : List Char) : Option (List Char) :=
  match s with
  | '<' :: '%' :: '=' :: r1 =>
    let r2 := r1.dropWhile Char.isWhitespace
    if key.isPrefixOf r2 then
      let r3 := (r2.drop key.length).dropWhile Char.isWhitespace
      match r3 with
      | '%' :: '>' :: r4 => some r4
      | _ => none
    else none
  | _ => none

/-- Global replace of `new RegExp('<%=\\s*' + key + '\\s*%>', 'g')` by
`value` (line 482-483): leftmost non-overlapping matches, replacement text
not rescanned. -/
def substTokenGo (key value : List Char) : Nat → List Char → List Char
  | 0, s => s
  | fuel + 1, s =>
    match s with
    | [] => []
    | c :: rest =>
      match matchTokenAt key s with
      | some r => value ++ substTokenGo key value fuel r
      | none => c :: substTokenGo key value fuel rest

/-- One `processedContent.replace(tokenRegex, String(value))` call. -/
def substToken (key value : String) (content : String) : String :=
  String.mk (substTokenGo key.data value.data (content.data.length + 1) content.data)

/-- `Object.entries(variables)` (line 481) with `String(value)` applied:
the substitution pairs in record-insertion order. -/
def templateVariablesList (config : LessonConfig) (currentYear : Nat) :
    List (String × String) :=
  let tv := getTemplateVariables config currentYear
  [("lessonTitle", tv.lessonTitle),
   ("lessonDesc", tv.lessonDesc),
   ("lessonKeys", tv.lessonKeys),
   ("lessonID", tv.lessonID.toJsString),
   ("lessonPath", tv.lessonPath),
   ("copyrightYear", toString tv.copyrightYear),
   ("splashImageCredit", tv.splashImageCredit),
   ("lessonLang", tv.lessonLang),
   ("templateType", tv.templateType)]

/-- `processTemplateVariables` (`LessonBuilder.tsx` lines 475-493): the
EJS-style token replacement for every variable, then the language
conditionals (which can throw), then the template-type conditionals. -/
def processTemplateVariables (config : LessonConfig) (currentYear : Nat)
    (content : String) : Except JsError String :=
  let substituted := (templateVariablesList config currentYear).foldl
    (fun acc kv => substToken kv.1 kv.2 acc) content
  match processLanguageConditionals config.language substituted with
  | .error e => .error e
  | .ok s => .ok (processTemplateTypeConditionals s)

/-! ## Package assembly (`generateLesson` / `processTemplateFiles`,
`copyAssetDirectories`, lines 214-353)

Network fetches are modelled by a map `fetch : String → Option String`
from source path to the fetched text (`none` models both a failed fetch
and a non-`ok` response, in which case the file is skipped with a
warning).  A TypeError thrown by `processTemplateVariables` is caught by
the `try`/`catch` around each template file, which also skips the file. -/

def templatePath : String := "/src/utils/templates/latest_core_php"

/-- The template-file manifest (lines 237-247), processed with variable
substitution. -/
def templateFileNames : List String :=
  ["index.htm", "navmenu.php", "download.php", "media_gallery.php",
   "print_sample.php", "pageTemplate.php", "navmenu.inc.php",
   "navmenu.inc_es.php", "navmenu.inc_fr.php"]

/-- The static files copied without processing (lines 264-266). -/
def staticFileNames : List String := ["simple_html_dom.php"]

/-- The fixed `(targetPath, sourcePath)` pairs copied by
`copyAssetDirectories`/`copyDirectory` (lines 284-325), in directory-loop
order (`assets` copies nothing: `copyDirectory` has no branch for it). -/
def assetCopyPairs : List (String × String) :=
  [("bootstrap/css/bootstrap.min.css", templatePath ++ "/bootstrap/css/bootstrap.min.css"),
   ("bootstrap/js/bootstrap.min.js", templatePath ++ "/bootstrap/js/bootstrap.min.js"),
   ("css/meted-base.min.css", templatePath ++ "/css/meted-base.min.css"),
   ("css/module-custom.css", templatePath ++ "/css/module-custom.css"),
   ("css/module-print.css", templatePath ++ "/css/module-print.css"),
   ("ie-support/html5shiv.js", templatePath ++ "/ie-support/html5shiv.js"),
   ("ie-support/respond.js", templatePath ++ "/ie-support/respond.js"),
   ("ie-support/ie-support.css", templatePath ++ "/ie-support/ie-support.css"),
   ("jquery/jquery.min.js", templatePath ++ "/jquery/jquery.min.js"),
   ("jquery/jquery-ui.min.js", templatePath ++ "/jquery/jquery-ui.min.js"),
   ("jquery/jquery-ui.min.css", templatePath ++ "/jquery/jquery-ui.min.css"),
   ("jquery/jquery-plugins.min.js", templatePath ++ "/jquery/jquery-plugins.min.js"),
   ("jquery/apps/apps.css", templatePath ++ "/jquery/apps/apps.css"),
   ("jquery/apps/apps.js", templatePath ++ "/jquery/apps/apps.js"),
   ("modernizr/modernizr.min.js", templatePath ++ "/modernizr/modernizr.min.js")]

/-- The full assembled output of one export: the processed template files
(skipped on failed fetch or thrown substitution error), the raw static
files, the copied asset-directory files, and the generated unit print
files, as `(zip path, content)` pairs in insertion order. -/
def assemble (config : LessonConfig) (fetch : String → Option String)
    (currentYear : Nat) : List (String × String) :=
  (templateFileNames.filterMap fun fn =>
    match fetch (templatePath ++ "/" ++ fn) with
    | none => none
    | some content =>
      match processTemplateVariables config currentYear content with
      | .error _ => none
      | .ok processed => some (fn, processed))
  ++ (staticFileNames.filterMap fun fn =>
    (fetch (templatePath ++ "/" ++ fn)).map fun content => (fn, content))
  ++ (assetCopyPairs.filterMap fun pair =>
    (fetch pair.2).map fun content => (pair.1, content))
  ++ generateUnitPrintFiles config currentYear

/-! ## Page-tree operations (`src/unnamed/part_001`) -/

/-- Replace the element at index `i` (if any) by `f` of it, modelling the
JavaScript `array[i] = { ...array[i], ... }` update after a `findIndex`. -/
def updateAt {α : Type} : Nat → (α → α) → List α → List α
  | _, _, [] => []
  | 0, f, x :: xs => f x :: xs
  | n + 1, f, x :: xs => x :: updateAt n f xs

/-- JavaScript `Array.prototype.findIndex`, with `none` for `-1`. -/
def jsFindIndex {α : Type} (p : α → Bool) : List α → Option Nat
  | [] => none
  | x :: xs => if p x then some 0 else (jsFindIndex p xs).map (· + 1)

/-- JavaScript template interpolation of a possibly-`undefined` string. -/
def jsShowOptStr : Option String → String
  | some s => s
  | none => "undefined"

/-- `handleAddPage` (`part_001` lines 62-107).  `newId` models the fresh
`uuidv4()` value.  A JS `parentId ? … : …` guard treats the empty string
as absent.  The parent's `children` update happens only when `parentId`
is truthy and found in the updated list. -/
def handleAddPage (pages : List LessonPage) (level : Nat)
    (parentId : Option String) (newId : String) : List LessonPage :=
  let pageNumber :=
    (pages.filter fun p => p.level == level && p.parentId == parentId).length + 1
  let parentPage : Option LessonPage :=
    match parentId with
    | some pid => if pid = "" then none else pages.find? fun p => p.id == pid
    | none => none
  let pageIdentifier : String :=
    if level = 1 then toString pageNumber ++ "-0-0"
    else if level = 2 then
      let parentNum : Option String :=
        match parentPage with
        | some pp => pp.page.map fun s => (s.splitOn "-").headD ""
        | none => some "1"
      jsShowOptStr parentNum ++ "-" ++ toString pageNumber ++ "-0"
    else if level = 3 then
      let parentNums : Option (List String) :=
        match parentPage with
        | some pp => pp.page.map fun s => s.splitOn "-"
        | none => some ["1", "1"]
      match parentNums with
      | some ns => jsShowOptStr ns[0]? ++ "-" ++ jsShowOptStr ns[1]? ++ "-" ++ toString pageNumber
      | none => ""
    else ""
  let newPage : LessonPage := .mk newId
    ((if level = 1 then "Page" else if level = 2 then "Subpage" else "Sub-subpage")
      ++ " " ++ toString pageNumber)
    "<p>Add your content here...</p>" "" (pages.length + 1) "content" level
    parentId [] (some pageIdentifier) false
  let updatedPages := pages ++ [newPage]
  match parentId with
  | none => updatedPages
  | some pid =>
    if pid = "" then updatedPages
    else
      match jsFindIndex (fun p => p.id == pid) updatedPages with
      | none => updatedPages
      | some i =>
        updateAt i (fun par => par.withChildren (par.children ++ [newPage])) updatedPages

/-- `handleDeletePage` (`part_001` lines 116-147).  The filter drops the
page itself, the pages whose `parentId` is the deleted id, and the pages
listed in the deleted page's own `children` snapshot — and nothing else
(grandchildren are not visited).  Then the deleted page's parent, if any,
has the deleted id filtered out of its `children` list. -/
def handleDeletePage (pages : List LessonPage) (pageId : String) : List LessonPage :=
  match pages.find? (fun p => p.id == pageId) with
  | none => pages
  | some pageToDelete =>
    let updatedPages := pages.filter fun page =>
      !(page.id == pageId) && !(page.parentId == some pageId) &&
        !(pageToDelete.children.any fun child => child.id == page.id)
    match pageToDelete.parentId with
    | none => updatedPages
    | some parId =>
      if parId = "" then updatedPages
      else
        match jsFindIndex (fun p => p.id == parId) updatedPages with
        | none => updatedPages
        | some i =>
          updateAt i
            (fun par =>
              par.withChildren (par.children.filter fun child => !(child.id == pageId)))
            updatedPages

/-! ## JSON tree import (`handleJsonImport` / `convertMenuToPages`,
`part_001` lines 149-202)

`JSON.parse` output is modelled by the `Json` inductive; the parse result
handed to the import is an `Option Json` (`none` = the text was not valid
JSON).  Property access on `null` throws a TypeError, which the `try`
around the import catches. -/

inductive Json : Type where
  | null : Json
  | bool (b : Bool) : Json
  | num (n : Int) : Json
  | str (s : String) : Json
  | arr (elems : List Json) : Json
  | obj (fields : List (String × Json)) : Json

/-- Whether a parsed JSON value is `null` (property access on it throws a
TypeError). -/
def Json.isNull : Json → Bool
  | .null => true
  | _ => false

/-- Property lookup on a parsed JSON value: `undefined` (`none`) unless
the value is an object carrying the key; later duplicate keys win, as in
`JSON.parse`. -/
def jsonMember (j : Json) (key : String) : Option Json :=
  match j with
  | .obj fields => fields.foldl (fun acc f => if f.1 = key then some f.2 else acc) none
  | _ => none

/-- JavaScript truthiness of a parsed JSON value. -/
def jsTruthy : Json → Bool
  | .null => false
  | .bool b => b
  | .num n => n != 0
  | .str s => s != ""
  | .arr _ => true
  | .obj _ => true

/-- String coercion of a parsed JSON value, for the corner where a truthy
non-string occupies a string-typed field.  (Arrays and objects use the
simplified coercions `""` and `"[object Object]"`; no claim exercises
these, since the TS types restrict the fields to strings.) -/
def jsCoerceString : Json → String
  | .null => "null"
  | .bool b => if b then "true" else "false"
  | .num n => toString n
  | .str s => s
  | .arr _ => ""
  | .obj _ => "[object Object]"

/-- `item.<key> || fallback` for a string-typed field of an import
entry. -/
def jsFieldString (item : Json) (key : String) (fallback : String) : String :=
  match jsonMember item key with
  | some v => if jsTruthy v then jsCoerceString v else fallback
  | none => fallback

/-- `item.innerNode || false`. -/
def jsFieldBool (item : Json) (key : String) : Bool :=
  match jsonMember item key with
  | some v => jsTruthy v
  | none => false

/-- The nested `menu` array of an import entry, as tested by
`item.menu && Array.isArray(item.menu)` — the empty list when the field
is missing or not an array. -/
def itemMenu (item : Json) : List Json :=
  match jsonMember item "menu" with
  | some (.arr elems) => elems
  | _ => []

theorem jsonMember_sizeOf_lt {j : Json} {key : String} {v : Json}
    (h : jsonMember j key = some v) : sizeOf v < sizeOf j := by
  cases j with
  | obj fields =>
    have main : ∀ (fs : List (String × Json)) (acc : Option Json),
        fs.foldl (fun acc f => if f.1 = key then some f.2 else acc) acc = some v →
        (∃ f ∈ fs, f.2 = v) ∨ acc = some v := by
      intro fs
      induction fs with
      | nil => intro acc h; exact Or.inr h
      | cons f fs ih =>
        intro acc h
        rcases ih _ h with ⟨g, hg, hgv⟩ | hacc
        · exact Or.inl ⟨g, List.mem_cons_of_mem _ hg, hgv⟩
        · by_cases hf : f.1 = key
          · simp only [hf, if_pos rfl] at hacc
            exact Or.inl ⟨f, List.mem_cons_self _ _, Option.some.inj hacc⟩
          · simp only [if_neg hf] at hacc
            exact Or.inr hacc
    rcases main fields none h with ⟨f, hf, hfv⟩ | hnone
    · have h1 : sizeOf f < sizeOf fields := List.sizeOf_lt_of_mem hf
      have h2 : sizeOf v < sizeOf f := by
        cases f with
        | mk a b => simp only [Prod.mk.sizeOf_spec] at *; subst hfv; omega
      have h3 : sizeOf fields < sizeOf (Json.obj fields) := by
        simp [Json.obj.sizeOf_spec]
      omega
    · simp at hnone
  | null => simp [jsonMember] at h
  | bool b => simp [jsonMember] at h
  | num n => simp [jsonMember] at h
  | str s => simp [jsonMember] at h
  | arr elems => simp [jsonMember] at h

theorem itemMenu_sizeOf_le (j : Json) : sizeOf (itemMenu j) ≤ sizeOf j := by
  have hj : 1 ≤ sizeOf j := by cases j <;> simp
  unfold itemMenu
  split
  next elems heq =>
    have h1 := jsonMember_sizeOf_lt heq
    simp only [Json.arr.sizeOf_spec] at h1
    omega
  next => simpa using hj

/-- `convertMenuToPages` (`part_001` lines 174-202).  `ids` models the
`uuidv4()` supply (`ids ctr` is the value of the `ctr`-th call, counted in
program order); `parentId`, `level` are the recursion arguments; `idx` is
the `forEach` index.  Accessing a property of a `null` entry throws a
TypeError.  The source recurses only when the nested `menu` array is
nonempty; recursing on the empty `itemMenu` list returns no children and
the same counter, so the guard is dropped.  Returns the produced (flat)
page list and the next counter value. -/
def convertMenuToPages (ids : Nat → String) :
    List Json → Option String → Nat → Nat → Nat → Except JsError (List LessonPage × Nat)
  | [], _, _, ctr, _ => .ok ([], ctr)
  | item :: rest, parentId, level, ctr, idx =>
    if item.isNull then .error .typeError
    else
      let pid := ids ctr
      match convertMenuToPages ids (itemMenu item) (some pid) (level + 1) (ctr + 1) 0 with
      | .error e => .error e
      | .ok (children, ctr') =>
        match convertMenuToPages ids rest parentId level ctr' (idx + 1) with
        | .error e => .error e
        | .ok (restPages, ctr'') =>
          .ok (LessonPage.mk pid
            (jsFieldString item "title" ("Page " ++ toString (idx + 1)))
            (jsFieldString item "content" "<p>Add your content here...</p>")
            (jsFieldString item "description" "")
            (idx + 1)
            (jsFieldString item "type" "content")
            level parentId children
            (some (jsFieldString item "page" (toString (idx + 1) ++ "-0-0")))
            (jsFieldBool item "innerNode")
            :: children ++ restPages, ctr'')
termination_by menu _ _ _ _ => sizeOf menu
decreasing_by
  · simp only [List.cons.sizeOf_spec]
    have := itemMenu_sizeOf_le item
    omega
  · simp only [List.cons.sizeOf_spec]
    omega

/-- Whether any entry reachable through nested `menu` arrays is `null`
(the exact condition under which `convertMenuToPages` throws). -/
def treeHasNull : List Json → Bool
  | [] => false
  | item :: rest =>
    item.isNull || treeHasNull (itemMenu item) || treeHasNull rest
termination_by menu => sizeOf menu
decreasing_by
  · simp only [List.cons.sizeOf_spec]
    have := itemMenu_sizeOf_le item
    omega
  · simp only [List.cons.sizeOf_spec]
    omega

def invalidJsonMsg : String := "Invalid JSON file. Please check the format."

def invalidStructureMsg : String := "Invalid JSON structure. Expected a \"menu\" array."

/-- `handleJsonImport` (`part_001` lines 149-172), given the outcome of
`JSON.parse` (`none` = the file was not valid JSON, which the `catch`
turns into the format error).  Accessing `.menu` on a parsed `null` also
throws into the `catch`; a thrown TypeError inside `convertMenuToPages`
likewise.  On success the page collection is replaced wholesale; on any
failure it is left untouched.  Returns the new collection and the error
message, if any. -/
def handleJsonImport (ids : Nat → String) (parsed : Option Json)
    (pages : List LessonPage) : List LessonPage × Option String :=
  match parsed with
  | none => (pages, some invalidJsonMsg)
  | some .null => (pages, some invalidJsonMsg)
  | some j =>
    match jsonMember j "menu" with
    | some (.arr m) =>
      match convertMenuToPages ids m none 1 0 0 with
      | .ok (ps, _) => (ps, none)
      | .error _ => (pages, some invalidJsonMsg)
    | _ => (pages, some invalidStructureMsg)

/-! ## General helper lemmas -/

deriving instance DecidableEq for Except

theorem updateAt_map_of_preserving {α β : Type} (g : α → β) (f : α → α) (i : Nat)
    (l : List α) (h : ∀ x, g (f x) = g x) : (updateAt i f l).map g = l.map g := by
  induction l generalizing i with
  | nil => cases i <;> rfl
  | cons x xs ih =>
    cases i with
    | zero => simp [updateAt, h]
    | succ n => simp [updateAt, ih]

theorem updateAt_getElem? {α : Type} (f : α → α) (i k : Nat) (l : List α) :
    (updateAt i f l)[k]? = if k = i then (l[k]?).map f else l[k]? := by
  induction l generalizing i k with
  | nil => cases i <;> simp [updateAt]
  | cons x xs ih =>
    cases i with
    | zero =>
      cases k with
      | zero => simp [updateAt]
      | succ m => simp [updateAt]
    | succ n =>
      cases k with
      | zero => simp [updateAt]
      | succ m => simpa [updateAt] using ih n m

theorem jsFindIndex_none_all {α : Type} {p : α → Bool} {l : List α}
    (h : jsFindIndex p l = none) : ∀ x ∈ l, p x = false := by
  induction l with
  | nil => intro x hx; cases hx
  | cons y ys ih =>
    intro x hx
    simp only [jsFindIndex] at h
    by_cases hp : p y
    · simp [hp] at h
    · rcases List.mem_cons.mp hx with rfl | hmem
      · simpa using hp
      · refine ih ?_ x hmem
        simpa [hp] using h

theorem jsFindIndex_some_get {α : Type} {p : α → Bool} {l : List α} {i : Nat}
    (h : jsFindIndex p l = some i) : ∃ x, l[i]? = some x ∧ p x = true := by
  induction l generalizing i with
  | nil => simp [jsFindIndex] at h
  | cons y ys ih =>
    simp only [jsFindIndex] at h
    by_cases hp : p y
    · simp only [hp, if_pos] at h
      cases h
      exact ⟨y, by simp, hp⟩
    · simp only [hp, Bool.false_eq_true, if_false] at h
      cases hmap : jsFindIndex p ys with
      | none => rw [hmap] at h; exact absurd h (by simp)
      | some m =>
        rw [hmap] at h
        have h2 : m + 1 = i := by simpa using h
        subst h2
        rcases ih hmap with ⟨x, hx, hpx⟩
        exact ⟨x, by simpa using hx, hpx⟩

theorem nodup_map_getElem?_inj {α β : Type} {l : List α} {g : α → β}
    (hn : (l.map g).Nodup) {i j : Nat} {x y : α}
    (hi : l[i]? = some x) (hj : l[j]? = some y) (hg : g x = g y) : i = j := by
  have hi' : (l.map g)[i]? = some (g x) := by
    rw [List.getElem?_map, hi]; rfl
  have hj' : (l.map g)[j]? = some (g y) := by
    rw [List.getElem?_map, hj]; rfl
  by_contra hne
  have hlen : ∀ {k : Nat} {z : β}, (l.map g)[k]? = some z → k < (l.map g).length := by
    intro k z hk
    by_contra hk'
    rw [List.getElem?_eq_none (Nat.le_of_not_lt hk')] at hk
    cases hk
  rcases Nat.lt_or_ge i j with hij | hij
  · exact (List.nodup_iff_getElem?_ne_getElem?.mp hn i j hij (hlen hj'))
      (by rw [hi', hj', hg])
  · have hji : j < i := Nat.lt_of_le_of_ne hij (fun h => hne h.symm)
    exact (List.nodup_iff_getElem?_ne_getElem?.mp hn j i hji (hlen hi'))
      (by rw [hi', hj', hg])

theorem withChildren_id (x : LessonPage) (ch : List LessonPage) :
    (x.withChildren ch).id = x.id := by cases x; rfl

theorem withChildren_order (x : LessonPage) (ch : List LessonPage) :
    (x.withChildren ch).order = x.order := by cases x; rfl

theorem withChildren_children (x : LessonPage) (ch : List LessonPage) :
    (x.withChildren ch).children = ch := by cases x; rfl

/-! ## Claim C1 -/

theorem generateUnitPrintFilesGo_getElem? (c : LessonConfig) (y : Nat)
    (ps : List LessonPage) (i k : Nat) :
    (generateUnitPrintFilesGo c y ps i)[k]? = (ps[k]?).map fun p =>
      ("print_" ++ toString (i + k + 1) ++ ".php",
        generateUnitPrintContent c p (i + k + 1) y) := by
  induction ps generalizing i k with
  | nil => simp [generateUnitPrintFilesGo]
  | cons p rest ih =>
    cases k with
    | zero => simp [generateUnitPrintFilesGo]
    | succ m =>
      have := ih (i + 1) m
      simp only [generateUnitPrintFilesGo, List.getElem?_cons_succ]
      rw [this]
      have harith : i + 1 + m + 1 = i + (m + 1) + 1 := by omega
      rw [harith]

theorem generateUnitPrintFilesGo_length (c : LessonConfig) (y : Nat)
    (ps : List LessonPage) (i : Nat) :
    (generateUnitPrintFilesGo c y ps i).length = ps.length := by
  induction ps generalizing i with
  | nil => rfl
  | cons p rest ih => simp [generateUnitPrintFilesGo, ih]

/-- C1 (amended): the Latest Core PHP generator produces one
`print_<k+1>.php` file per entry of the whole (flat) `config.pages`
collection — level-2/3 pages included — and the file at position `k` is
generated from the `k`-th page of the collection, numbered purely by
position.  (The claim as stated — exactly one file per *top-level* page —
fails; see the counterexample.) -/
theorem c1_print_files_by_position (config : LessonConfig) (currentYear k : Nat) :
    (generateUnitPrintFiles config currentYear).length = config.pages.length ∧
    (generateUnitPrintFiles config currentYear)[k]? = (config.pages[k]?).map fun p =>
      ("print_" ++ toString (k + 1) ++ ".php",
        generateUnitPrintContent config p (k + 1) currentYear) := by
  constructor
  · exact generateUnitPrintFilesGo_length config currentYear config.pages 0
  · have := generateUnitPrintFilesGo_getElem? config currentYear config.pages 0 k
    simpa [generateUnitPrintFiles] using this

def c1CexChild : LessonPage :=
  .mk "b" "B" "" "" 2 "content" 2 (some "a") [] (some "1-1-0") false

def c1CexConfig : LessonConfig :=
  ⟨"English", "T", "1", "", "", none,
    [.mk "a" "A" "" "" 1 "content" 1 none [c1CexChild] (some "1-0-0") false, c1CexChild]⟩

/-- C1 counterexample: a collection with one top-level page and one
level-2 child produces two print files (`print_1.php`, `print_2.php`),
not exactly one file for the one top-level page. -/
theorem c1_counterexample :
    (c1CexConfig.pages.filter fun p => p.level == 1).length = 1 ∧
    (generateUnitPrintFiles c1CexConfig 2026).map Prod.fst =
      ["print_1.php", "print_2.php"] := by
  constructor
  · rfl
  · rfl

/-! ## Claim C2 -/

/-- A static template text consisting of one well-formed
language-conditional block with branch bodies `"  Texto  "`, `" Texte "`
and `" English text "`. -/
def langConditionalExample : String :=
  String.mk (langDelim1A ++ "  Texto  ".data ++ langDelim2A ++ " Texte ".data
    ++ langDelimElse ++ " English text ".data ++ langDelimEnd)

set_option maxRecDepth 20000 in
/-- C2 (code bug evidence): on a template containing a language-conditional
block the substitution pass does not select a branch.  The regexes at
lines 500 and 512 have no capture groups, so the replacement callback's
parameters `esContent`/`frContent`/`enContent` receive the match offset
(a number), the whole subject string, and `undefined`: for English (the
default) and Spanish the callback throws a TypeError (`.trim()` on a
non-string), and for French it splices the entire trimmed subject string
into the block's place instead of the French branch. -/
theorem c2_language_conditional_typeerror :
    processLanguageConditionals "English" langConditionalExample = .error .typeError ∧
    processLanguageConditionals "ES" langConditionalExample = .error .typeError ∧
    processLanguageConditionals "FR" langConditionalExample =
      .ok (jsTrim langConditionalExample) := by
  refine ⟨by decide, by decide, ?_⟩
  decide

/-! ## Claim C3 -/

def emptyLessonConfig : LessonConfig := ⟨"", "", "", "", "", none, []⟩

/-- C3 (amended): the template-variable resolver is total, with the
documented fallbacks for empty title, description and keywords; the
copyright year however always equals the current calendar year — the
`customCopyrightYear` override is never consulted by this resolver. -/
theorem c3_resolver_fallbacks_and_year (config : LessonConfig) (currentYear : Nat) :
    (config.lessonTitle = "" →
      (getTemplateVariables config currentYear).lessonTitle = "Untitled Lesson") ∧
    (config.description = "" →
      (getTemplateVariables config currentYear).lessonDesc =
        "MetEd lesson created with the lesson generator") ∧
    (config.keywords = "" →
      (getTemplateVariables config currentYear).lessonKeys =
        "meteorology, education, training") ∧
    (getTemplateVariables config currentYear).copyrightYear = currentYear ∧
    (∀ o, getTemplateVariables { config with customCopyrightYear := o } currentYear =
      getTemplateVariables config currentYear) := by
  refine ⟨?_, ?_, ?_, rfl, fun o => rfl⟩
  · intro h; simp [getTemplateVariables, h]
  · intro h; simp [getTemplateVariables, h]
  · intro h; simp [getTemplateVariables, h]

theorem c3_witness :
    (getTemplateVariables emptyLessonConfig 2026).lessonTitle = "Untitled Lesson" ∧
    (getTemplateVariables emptyLessonConfig 2026).lessonDesc =
      "MetEd lesson created with the lesson generator" ∧
    (getTemplateVariables emptyLessonConfig 2026).lessonKeys =
      "meteorology, education, training" ∧
    (getTemplateVariables emptyLessonConfig 2026).copyrightYear = 2026 :=
  ⟨(c3_resolver_fallbacks_and_year emptyLessonConfig 2026).1 rfl,
   (c3_resolver_fallbacks_and_year emptyLessonConfig 2026).2.1 rfl,
   (c3_resolver_fallbacks_and_year emptyLessonConfig 2026).2.2.1 rfl,
   (c3_resolver_fallbacks_and_year emptyLessonConfig 2026).2.2.2.1⟩

def c3CexConfig : LessonConfig := ⟨"English", "T", "1", "d", "k", some "1999", []⟩

/-- C3 counterexample: with a supplied `customCopyrightYear` override of
`"1999"` the resolver still reports the current calendar year (here 2026),
not the override value. -/
theorem c3_counterexample :
    c3CexConfig.customCopyrightYear = some "1999" ∧
    (getTemplateVariables c3CexConfig 2026).copyrightYear = 2026 ∧
    (getTemplateVariables c3CexConfig 2026).copyrightYear ≠ 1999 := by
  refine ⟨rfl, rfl, by decide⟩

/-! ## Claims C8 and C10 -/

/-- C10: the page title is embedded verbatim, with no HTML escaping, at
its four occurrences in the generated unit print file (banner link, table
of contents link, section heading, placeholder text): the output is the
fixed surrounding text with the raw title string spliced in at each of the
four places, uniformly in the title. -/
theorem c10_title_verbatim_unescaped (config : LessonConfig) (page : LessonPage)
    (unitNumber year : Nat) :
    ∃ s1 s2 s3 s4 s5,
      generateUnitPrintContent config page unitNumber year =
        s1 ++ page.title ++ s2 ++ page.title ++ s3 ++ page.title ++ s4 ++ page.title ++ s5 ∧
      ∀ t, generateUnitPrintContent config (page.withTitle t) unitNumber year =
        s1 ++ t ++ s2 ++ t ++ s3 ++ t ++ s4 ++ t ++ s5 := by
  refine ⟨unitPrintSeg0 ++ getLangCode config ++ unitPrintSeg1
      ++ (getTemplateVariables config year).lessonTitle ++ unitPrintSeg2
      ++ (getTemplateVariables config year).lessonDesc ++ unitPrintSeg3
      ++ (getTemplateVariables config year).lessonKeys ++ unitPrintSeg4,
    unitPrintSeg5 ++ getProducedByText config ++ unitPrintSeg6
      ++ toString unitNumber ++ unitPrintSeg7,
    unitPrintSeg8 ++ toString unitNumber ++ unitPrintSeg9,
    unitPrintSeg10 ++ contentPlaceholderOpen,
    contentPlaceholderClose ++ unitPrintSeg11
      ++ toString (getTemplateVariables config year).copyrightYear
      ++ unitPrintSeg12 ++ getAllRightsReservedText config ++ unitPrintSeg13
      ++ getLegalNoticesUrl config ++ unitPrintSeg14 ++ getLegalNoticesText config
      ++ unitPrintSeg15 ++ getBackToTopText config ++ unitPrintSeg16, ?_, ?_⟩
  · cases page with
    | mk i ttl cc d o ty l pr ch pg inn =>
      simp [generateUnitPrintContent, contentPlaceholderHtml, LessonPage.title,
        String.append_assoc]
  · intro t
    cases page with
    | mk i ttl cc d o ty l pr ch pg inn =>
      simp [generateUnitPrintContent, contentPlaceholderHtml, LessonPage.withTitle,
        LessonPage.title, String.append_assoc]

/-- C8: the generated unit print file embeds the unit title, the localized
chrome (produced-by credit, rights text, legal-notices link text,
back-to-top label, each selected by the configuration language), and the
fixed content placeholder block — and it does not depend on the page's
authored `content` field at all (the authored content is never emitted). -/
theorem c8_unit_print_placeholder_and_chrome (config : LessonConfig)
    (page : LessonPage) (unitNumber year : Nat) :
    (∀ v, generateUnitPrintContent config (page.withContent v) unitNumber year =
      generateUnitPrintContent config page unitNumber year) ∧
    (∃ a b, generateUnitPrintContent config page unitNumber year =
      a ++ page.title ++ b) ∧
    (∃ a b, generateUnitPrintContent config page unitNumber year =
      a ++ contentPlaceholderHtml page.title ++ b) ∧
    (∃ a b, generateUnitPrintContent config page unitNumber year =
      a ++ getProducedByText config ++ b) ∧
    (∃ a b, generateUnitPrintContent config page unitNumber year =
      a ++ getAllRightsReservedText config ++ b) ∧
    (∃ a b, generateUnitPrintContent config page unitNumber year =
      a ++ getLegalNoticesText config ++ b) ∧
    (∃ a b, generateUnitPrintContent config page unitNumber year =
      a ++ getBackToTopText config ++ b) := by
  refine ⟨?_, ?_, ?_, ?_, ?_, ?_, ?_⟩
  · intro v
    cases page with
    | mk i ttl cc d o ty l pr ch pg inn => rfl
  · exact ⟨unitPrintSeg0
      ++ getLangCode config
      ++ unitPrintSeg1
      ++ (getTemplateVariables config year).lessonTitle
      ++ unitPrintSeg2
      ++ (getTemplateVariables config year).lessonDesc
      ++ unitPrintSeg3
      ++ (getTemplateVariables config year).lessonKeys
      ++ unitPrintSeg4,
      unitPrintSeg5
      ++ getProducedByText config
      ++ unitPrintSeg6
      ++ toString unitNumber
      ++ unitPrintSeg7
      ++ page.title
      ++ unitPrintSeg8
      ++ toString unitNumber
      ++ unitPrintSeg9
      ++ page.title
      ++ unitPrintSeg10
      ++ contentPlaceholderHtml page.title
      ++ unitPrintSeg11
      ++ toString (getTemplateVariables config year).copyrightYear
      ++ unitPrintSeg12
      ++ getAllRightsReservedText config
      ++ unitPrintSeg13
      ++ getLegalNoticesUrl config
      ++ unitPrintSeg14
      ++ getLegalNoticesText config
      ++ unitPrintSeg15
      ++ getBackToTopText config
      ++ unitPrintSeg16,
      by simp [generateUnitPrintContent, contentPlaceholderHtml, String.append_assoc]⟩
  · exact ⟨unitPrintSeg0
      ++ getLangCode config
      ++ unitPrintSeg1
      ++ (getTemplateVariables config year).lessonTitle
      ++ unitPrintSeg2
      ++ (getTemplateVariables config year).lessonDesc
      ++ unitPrintSeg3
      ++ (getTemplateVariables config year).lessonKeys
      ++ unitPrintSeg4
      ++ page.title
      ++ unitPrintSeg5
      ++ getProducedByText config
      ++ unitPrintSeg6
      ++ toString unitNumber
      ++ unitPrintSeg7
      ++ page.title
      ++ unitPrintSeg8
      ++ toString unitNumber
      ++ unitPrintSeg9
      ++ page.title
      ++ unitPrintSeg10,
      unitPrintSeg11
      ++ toString (getTemplateVariables config year).copyrightYear
      ++ unitPrintSeg12
      ++ getAllRightsReservedText config
      ++ unitPrintSeg13
      ++ getLegalNoticesUrl config
      ++ unitPrintSeg14
      ++ getLegalNoticesText config
      ++ unitPrintSeg15
      ++ getBackToTopText config
      ++ unitPrintSeg16,
      by simp [generateUnitPrintContent, contentPlaceholderHtml, String.append_assoc]⟩
  · exact ⟨unitPrintSeg0
      ++ getLangCode config
      ++ unitPrintSeg1
      ++ (getTemplateVariables config year).lessonTitle
      ++ unitPrintSeg2
      ++ (getTemplateVariables config year).lessonDesc
      ++ unitPrintSeg3
      ++ (getTemplateVariables config year).lessonKeys
      ++ unitPrintSeg4
      ++ page.title
      ++ unitPrintSeg5,
      unitPrintSeg6
      ++ toString unitNumber
      ++ unitPrintSeg7
      ++ page.title
      ++ unitPrintSeg8
      ++ toString unitNumber
      ++ unitPrintSeg9
      ++ page.title
      ++ unitPrintSeg10
      ++ contentPlaceholderHtml page.title
      ++ unitPrintSeg11
      ++ toString (getTemplateVariables config year).copyrightYear
      ++ unitPrintSeg12
      ++ getAllRightsReservedText config
      ++ unitPrintSeg13
      ++ getLegalNoticesUrl config
      ++ unitPrintSeg14
      ++ getLegalNoticesText config
      ++ unitPrintSeg15
      ++ getBackToTopText config
      ++ unitPrintSeg16,
      by simp [generateUnitPrintContent, contentPlaceholderHtml, String.append_assoc]⟩
  · exact ⟨unitPrintSeg0
      ++ getLangCode config
      ++ unitPrintSeg1
      ++ (getTemplateVariables config year).lessonTitle
      ++ unitPrintSeg2
      ++ (getTemplateVariables config year).lessonDesc
      ++ unitPrintSeg3
      ++ (getTemplateVariables config year).lessonKeys
      ++ unitPrintSeg4
      ++ page.title
      ++ unitPrintSeg5
      ++ getProducedByText config
      ++ unitPrintSeg6
      ++ toString unitNumber
      ++ unitPrintSeg7
      ++ page.title
      ++ unitPrintSeg8
      ++ toString unitNumber
      ++ unitPrintSeg9
      ++ page.title
      ++ unitPrintSeg10
      ++ contentPlaceholderHtml page.title
      ++ unitPrintSeg11
      ++ toString (getTemplateVariables config year).copyrightYear
      ++ unitPrintSeg12,
      unitPrintSeg13
      ++ getLegalNoticesUrl config
      ++ unitPrintSeg14
      ++ getLegalNoticesText config
      ++ unitPrintSeg15
      ++ getBackToTopText config
      ++ unitPrintSeg16,
      by simp [generateUnitPrintContent, contentPlaceholderHtml, String.append_assoc]⟩
  · exact ⟨unitPrintSeg0
      ++ getLangCode config
      ++ unitPrintSeg1
      ++ (getTemplateVariables config year).lessonTitle
      ++ unitPrintSeg2
      ++ (getTemplateVariables config year).lessonDesc
      ++ unitPrintSeg3
      ++ (getTemplateVariables config year).lessonKeys
      ++ unitPrintSeg4
      ++ page.title
      ++ unitPrintSeg5
      ++ getProducedByText config
      ++ unitPrintSeg6
      ++ toString unitNumber
      ++ unitPrintSeg7
      ++ page.title
      ++ unitPrintSeg8
      ++ toString unitNumber
      ++ unitPrintSeg9
      ++ page.title
      ++ unitPrintSeg10
      ++ contentPlaceholderHtml page.title
      ++ unitPrintSeg11
      ++ toString (getTemplateVariables config year).copyrightYear
      ++ unitPrintSeg12
      ++ getAllRightsReservedText config
      ++ unitPrintSeg13
      ++ getLegalNoticesUrl config
      ++ unitPrintSeg14,
      unitPrintSeg15
      ++ getBackToTopText config
      ++ unitPrintSeg16,
      by simp [generateUnitPrintContent, contentPlaceholderHtml, String.append_assoc]⟩
  · exact ⟨unitPrintSeg0
      ++ getLangCode config
      ++ unitPrintSeg1
      ++ (getTemplateVariables config year).lessonTitle
      ++ unitPrintSeg2
      ++ (getTemplateVariables config year).lessonDesc
      ++ unitPrintSeg3
      ++ (getTemplateVariables config year).lessonKeys
      ++ unitPrintSeg4
      ++ page.title
      ++ unitPrintSeg5
      ++ getProducedByText config
      ++ unitPrintSeg6
      ++ toString unitNumber
      ++ unitPrintSeg7
      ++ page.title
      ++ unitPrintSeg8
      ++ toString unitNumber
      ++ unitPrintSeg9
      ++ page.title
      ++ unitPrintSeg10
      ++ contentPlaceholderHtml page.title
      ++ unitPrintSeg11
      ++ toString (getTemplateVariables config year).copyrightYear
      ++ unitPrintSeg12
      ++ getAllRightsReservedText config
      ++ unitPrintSeg13
      ++ getLegalNoticesUrl config
      ++ unitPrintSeg14
      ++ getLegalNoticesText config
      ++ unitPrintSeg15,
      unitPrintSeg16,
      by simp [generateUnitPrintContent, contentPlaceholderHtml, String.append_assoc]⟩

/-! ## Claim C9 -/

theorem generateUnitPrintFilesGo_map_fst (config : LessonConfig) (y₁ y₂ : Nat)
    (ps : List LessonPage) (i : Nat) :
    (generateUnitPrintFilesGo config y₁ ps i).map Prod.fst =
      (generateUnitPrintFilesGo config y₂ ps i).map Prod.fst := by
  induction ps generalizing i with
  | nil => rfl
  | cons p rest ih => simp [generateUnitPrintFilesGo, ih]

/-- C9: assembly is a deterministic pure function of its inputs — the
configuration snapshot, the fetched template bytes, and the wall-clock
year: equal inputs give byte-identical output lists.  Moreover the clock
enters the generated unit print files only through the copyright-year
splice: their zip paths are clock-independent, and each file's content is
a fixed prefix and suffix around the decimal year. -/
theorem c9_assembly_deterministic (config : LessonConfig)
    (fetch : String → Option String) (y₁ y₂ : Nat) :
    (y₁ = y₂ → assemble config fetch y₁ = assemble config fetch y₂) ∧
    (generateUnitPrintFiles config y₁).map Prod.fst =
      (generateUnitPrintFiles config y₂).map Prod.fst ∧
    (∀ page unitNumber, ∃ pre post, ∀ year,
      generateUnitPrintContent config page unitNumber year =
        pre ++ toString year ++ post) := by
  refine ⟨fun h => by rw [h], ?_, ?_⟩
  · exact generateUnitPrintFilesGo_map_fst config y₁ y₂ config.pages 0
  · intro page unitNumber
    refine ⟨unitPrintSeg0 ++ getLangCode config ++ unitPrintSeg1
        ++ (if config.lessonTitle = "" then "Untitled Lesson" else config.lessonTitle)
        ++ unitPrintSeg2
        ++ (if config.description = "" then "MetEd lesson created with the lesson generator"
            else config.description)
        ++ unitPrintSeg3
        ++ (if config.keywords = "" then "meteorology, education, training"
            else config.keywords)
        ++ unitPrintSeg4 ++ page.title ++ unitPrintSeg5 ++ getProducedByText config
        ++ unitPrintSeg6 ++ toString unitNumber ++ unitPrintSeg7 ++ page.title
        ++ unitPrintSeg8 ++ toString unitNumber ++ unitPrintSeg9 ++ page.title
        ++ unitPrintSeg10 ++ contentPlaceholderHtml page.title ++ unitPrintSeg11,
      unitPrintSeg12 ++ getAllRightsReservedText config ++ unitPrintSeg13
        ++ getLegalNoticesUrl config ++ unitPrintSeg14 ++ getLegalNoticesText config
        ++ unitPrintSeg15 ++ getBackToTopText config ++ unitPrintSeg16, ?_⟩
    intro year
    simp [generateUnitPrintContent, getTemplateVariables, contentPlaceholderHtml,
      String.append_assoc]

theorem c9_witness :
    assemble emptyLessonConfig (fun _ => none) 2026 =
      assemble emptyLessonConfig (fun _ => none) 2026 :=
  (c9_assembly_deterministic emptyLessonConfig (fun _ => none) 2026 2026).1 rfl

/-! ## Claim C4 -/

/-- C4 (amended): for a page collection with distinct ids, deleting a page
removes from the collection exactly the page itself and its *direct*
children (the pages whose `parentId` is the deleted id or which appear in
the deleted page's `children` snapshot) — deeper descendants are not
visited — and the deleted id is filtered out of its surviving parent's
`children` list.  (The claim as stated — all descendants removed, no
orphaned parent references — fails; see the counterexample.) -/
theorem c4_delete_direct_children_only (pages : List LessonPage) (pid : String)
    (pd : LessonPage)
    (hfind : pages.find? (fun p => p.id == pid) = some pd)
    (hnodup : (pages.map (·.id)).Nodup) :
    ((handleDeletePage pages pid).map (·.id) =
      (pages.filter fun p => !(p.id == pid) && !(p.parentId == some pid) &&
        !(pd.children.any fun ch => ch.id == p.id)).map (·.id)) ∧
    (∀ parId, pd.parentId = some parId → parId ≠ "" →
      ∀ q ∈ handleDeletePage pages pid, q.id = parId →
        ∀ ch ∈ q.children, ch.id ≠ pid) := by
  have hup : (pages.filter fun p => !(p.id == pid) && !(p.parentId == some pid) &&
      !(pd.children.any fun ch => ch.id == p.id)).map (·.id) |>.Nodup := by
    refine List.Nodup.sublist ?_ hnodup
    exact List.Sublist.map _ (List.filter_sublist pages)
  constructor
  · simp only [handleDeletePage, hfind]
    cases hpar : pd.parentId with
    | none => rfl
    | some parId =>
      by_cases hpe : parId = ""
      · simp [hpe]
      · simp only [hpe, if_neg, ite_false]
        cases hidx : jsFindIndex (fun p => p.id == parId)
            (pages.filter fun p => !(p.id == pid) && !(p.parentId == some pid) &&
              !(pd.children.any fun ch => ch.id == p.id)) with
        | none => rfl
        | some i =>
          exact updateAt_map_of_preserving _ _ i _ (fun x => withChildren_id x _)
  · intro parId hparEq hpe q hq hqid ch hch
    simp only [handleDeletePage, hfind, hparEq, hpe, if_neg, ite_false] at hq
    set up := pages.filter fun p => !(p.id == pid) && !(p.parentId == some pid) &&
      !(pd.children.any fun c => c.id == p.id) with hupdef
    cases hidx : jsFindIndex (fun p => p.id == parId) up with
    | none =>
      rw [hidx] at hq
      have := jsFindIndex_none_all hidx q hq
      simp [hqid] at this
    | some i =>
      rw [hidx] at hq
      rcases List.getElem?_of_mem hq with ⟨k, hk⟩
      rw [updateAt_getElem?] at hk
      by_cases hki : k = i
      · rw [if_pos hki] at hk
        cases hx : up[k]? with
        | none => rw [hx] at hk; cases hk
        | some x =>
          rw [hx] at hk
          have hqfx : q = x.withChildren
              (x.children.filter fun c => !(c.id == pid)) := by
            have := hk
            simp only [Option.map_some'] at this
            exact (Option.some.inj this).symm
          rw [hqfx, withChildren_children] at hch
          have := List.of_mem_filter hch
          intro habs
          simp [habs] at this
      · rw [if_neg hki] at hk
        rcases jsFindIndex_some_get hidx with ⟨x₀, hx₀, hpx₀⟩
        have hx₀id : x₀.id = parId := by simpa using hpx₀
        have : k = i := nodup_map_getElem?_inj hup hk hx₀ (by rw [hqid, hx₀id])
        exact absurd this hki

def c4PageC : LessonPage :=
  .mk "c" "C" "" "" 3 "content" 3 (some "b") [] (some "1-1-1") false

def c4PageB : LessonPage :=
  .mk "b" "B" "" "" 2 "content" 2 (some "a") [c4PageC] (some "1-1-0") false

def c4PageA : LessonPage :=
  .mk "a" "A" "" "" 1 "content" 1 none [c4PageB] (some "1-0-0") false

def c4Pages : List LessonPage := [c4PageA, c4PageB, c4PageC]

/-- C4 counterexample: deleting the level-1 page `a` of the chain
`a ← b ← c` removes `a` and its direct child `b` but leaves the
grandchild `c` in the collection, with a `parentId` (`"b"`) that no
remaining page carries. -/
theorem c4_counterexample :
    (handleDeletePage c4Pages "a").map (·.id) = ["c"] ∧
    (handleDeletePage c4Pages "a").map (·.parentId) = [some "b"] ∧
    ¬ "b" ∈ (handleDeletePage c4Pages "a").map (·.id) := by
  refine ⟨rfl, rfl, by decide⟩

theorem c4_witness :
    ((handleDeletePage c4Pages "b").map (·.id) =
      (c4Pages.filter fun p => !(p.id == "b") && !(p.parentId == some "b") &&
        !(c4PageB.children.any fun ch => ch.id == p.id)).map (·.id)) ∧
    (∀ parId, c4PageB.parentId = some parId → parId ≠ "" →
      ∀ q ∈ handleDeletePage c4Pages "b", q.id = parId →
        ∀ ch ∈ q.children, ch.id ≠ "b") :=
  c4_delete_direct_children_only c4Pages "b" c4PageB rfl (by decide)

/-! ## Claim C5 -/

theorem mem_updateAt {α : Type} {q : α} {f : α → α} {i : Nat} {l : List α}
    (h : q ∈ updateAt i f l) : q ∈ l ∨ ∃ x ∈ l, q = f x := by
  induction l generalizing i with
  | nil => cases i <;> cases h
  | cons a as ih =>
    cases i with
    | zero =>
      rcases List.mem_cons.mp h with rfl | hmem
      · exact Or.inr ⟨a, List.mem_cons_self _ _, rfl⟩
      · exact Or.inl (List.mem_cons_of_mem _ hmem)
    | succ n =>
      rcases List.mem_cons.mp h with rfl | hmem
      · exact Or.inl (List.mem_cons_self _ _)
      · rcases ih hmem with hmem' | ⟨x, hx, rfl⟩
        · exact Or.inl (List.mem_cons_of_mem _ hmem')
        · exact Or.inr ⟨x, List.mem_cons_of_mem _ hx, rfl⟩

/-- C5 (amended): `handleAddPage` always appends a page whose `order` is
the previous collection length plus one, so after any sequence of adds the
orders are the contiguous 1-based positions; `handleDeletePage` leaves the
`order` of every surviving page unchanged — it does NOT renormalize, so a
deletion can leave a gap.  (The claim as stated — contiguous after any
add/delete sequence — fails; see the counterexample.) -/
theorem c5_order_add_delete (pages : List LessonPage) (level : Nat)
    (parentId : Option String) (newId : String) (pid : String) (q : LessonPage) :
    ((handleAddPage pages level parentId newId).map (·.order) =
      pages.map (·.order) ++ [pages.length + 1]) ∧
    (pages.map (·.order) = List.range' 1 pages.length →
      (handleAddPage pages level parentId newId).map (·.order) =
        List.range' 1 (pages.length + 1)) ∧
    (q ∈ handleDeletePage pages pid →
      ∃ q₀ ∈ pages, q₀.id = q.id ∧ q₀.order = q.order) := by
  have hadd : (handleAddPage pages level parentId newId).map (·.order) =
      pages.map (·.order) ++ [pages.length + 1] := by
    simp only [handleAddPage]
    cases parentId with
    | none => simp [LessonPage.order]
    | some pidv =>
      by_cases hpe : pidv = ""
      · simp [hpe, LessonPage.order]
      · simp only [hpe, Bool.false_eq_true, if_false, ite_false]
        split
        · simp [LessonPage.order]
        · rw [updateAt_map_of_preserving _ _ _ _ (fun x => withChildren_order x _)]
          simp [LessonPage.order]
  refine ⟨hadd, ?_, ?_⟩
  · intro h
    rw [hadd, h, List.range'_concat]
    simp [Nat.add_comm]
  · intro hq
    simp only [handleDeletePage] at hq
    cases hfind : pages.find? (fun p => p.id == pid) with
    | none =>
      rw [hfind] at hq
      exact ⟨q, hq, rfl, rfl⟩
    | some pd =>
      rw [hfind] at hq
      simp only at hq
      cases hpar : pd.parentId with
      | none =>
        rw [hpar] at hq
        simp only at hq
        exact ⟨q, List.mem_of_mem_filter hq, rfl, rfl⟩
      | some parId =>
        rw [hpar] at hq
        simp only at hq
        by_cases hpe : parId = ""
        · rw [if_pos hpe] at hq
          exact ⟨q, List.mem_of_mem_filter hq, rfl, rfl⟩
        · rw [if_neg hpe] at hq
          cases hidx : jsFindIndex (fun p => p.id == parId)
              (pages.filter fun page => !(page.id == pid) &&
                !(page.parentId == some pid) &&
                !(pd.children.any fun child => child.id == page.id)) with
          | none =>
            rw [hidx] at hq
            exact ⟨q, List.mem_of_mem_filter hq, rfl, rfl⟩
          | some i =>
            rw [hidx] at hq
            rcases mem_updateAt hq with hmem | ⟨x, hx, rfl⟩
            · exact ⟨q, List.mem_of_mem_filter hmem, rfl, rfl⟩
            · exact ⟨x, List.mem_of_mem_filter hx,
                (withChildren_id x _).symm, (withChildren_order x _).symm⟩

def c5Pages : List LessonPage := handleAddPage (handleAddPage [] 1 none "a") 1 none "b"

/-- C5 counterexample: after two adds the orders are `[1, 2]`; deleting the
first page leaves `[2]` — not 1-based contiguous, because deletion does
not renormalize the remaining orders. -/
theorem c5_counterexample :
    c5Pages.map (·.order) = [1, 2] ∧
    (handleDeletePage c5Pages "a").map (·.order) = [2] ∧
    (handleDeletePage c5Pages "a").map (·.order) ≠
      List.range' 1 (handleDeletePage c5Pages "a").length := by
  refine ⟨rfl, rfl, by decide⟩

theorem c5_witness :
    ((handleAddPage c4Pages 1 none "d").map (·.order) =
      List.range' 1 (c4Pages.length + 1)) ∧
    (∃ q₀ ∈ c4Pages, q₀.id = c4PageC.id ∧ q₀.order = c4PageC.order) :=
  ⟨(c5_order_add_delete c4Pages 1 none "d" "a" c4PageC).2.1 (by decide),
   (c5_order_add_delete c4Pages 1 none "d" "a" c4PageC).2.2
     (by rw [show handleDeletePage c4Pages "a" = [c4PageC] from rfl]
         exact List.mem_singleton_self _)⟩

/-! ## Claim C7 -/

def importIds : Nat → String := fun n => "uuid-" ++ toString n

theorem sizeOf_list_pos {α : Type} [SizeOf α] (l : List α) : 1 ≤ sizeOf l := by
  cases l with
  | nil => simp
  | cons a t => simp only [List.cons.sizeOf_spec]; omega

theorem convert_ok_of_no_null (ids : Nat → String) :
    ∀ (fuel : Nat) (items : List Json), sizeOf items ≤ fuel →
      treeHasNull items = false →
      ∀ (parentId : Option String) (level ctr idx : Nat),
        ∃ out, convertMenuToPages ids items parentId level ctr idx = .ok out := by
  intro fuel
  induction fuel with
  | zero =>
    intro items hsz
    cases items with
    | nil =>
      intro _ parentId level ctr idx
      exact ⟨([], ctr), by simp [convertMenuToPages]⟩
    | cons it rest =>
      exfalso
      have : 0 < sizeOf (it :: rest) := by simp
      omega
  | succ n ih =>
    intro items hsz hnull parentId level ctr idx
    cases items with
    | nil => exact ⟨([], ctr), by simp [convertMenuToPages]⟩
    | cons it rest =>
      have hcons : sizeOf (it :: rest) = 1 + sizeOf it + sizeOf rest := by simp
      have hnull' : it.isNull = false ∧ treeHasNull (itemMenu it) = false ∧
          treeHasNull rest = false := by
        have := hnull
        rw [treeHasNull] at this
        simp only [Bool.or_eq_false_iff] at this
        exact ⟨this.1.1, this.1.2, this.2⟩
      have hszIt : sizeOf (itemMenu it) ≤ n := by
        have := itemMenu_sizeOf_le it
        have h1 : 1 ≤ sizeOf rest := sizeOf_list_pos rest
        omega
      have hszRest : sizeOf rest ≤ n := by
        have h1 : 1 ≤ sizeOf it := by cases it <;> simp
        omega
      rcases ih (itemMenu it) hszIt hnull'.2.1 (some (ids ctr)) (level + 1)
        (ctr + 1) 0 with ⟨⟨children, ctr'⟩, hc⟩
      rcases ih rest hszRest hnull'.2.2 parentId level ctr' (idx + 1) with
        ⟨⟨restPages, ctr''⟩, hr⟩
      refine ⟨(LessonPage.mk (ids ctr)
          (jsFieldString it "title" ("Page " ++ toString (idx + 1)))
          (jsFieldString it "content" "<p>Add your content here...</p>")
          (jsFieldString it "description" "")
          (idx + 1)
          (jsFieldString it "type" "content")
          level parentId children
          (some (jsFieldString it "page" (toString (idx + 1) ++ "-0-0")))
          (jsFieldBool it "innerNode")
          :: children ++ restPages, ctr''), ?_⟩
      simp only [convertMenuToPages, hnull'.1, Bool.false_eq_true, if_false,
        ite_false, hc, hr]

/-- C7 (amended): the JSON tree import succeeds exactly when the text is
valid JSON, its top-level value carries an array field named `menu`, AND
no entry reachable through nested `menu` arrays is `null` (a `null` entry
throws a TypeError inside the conversion, which the `catch` reports as an
invalid-JSON error); on any failure the existing page collection is left
unchanged — no partial tree is applied. -/
theorem c7_import_failure_contract (ids : Nat → String) (parsed : Option Json)
    (pages : List LessonPage) :
    ((handleJsonImport ids parsed pages).2 = none →
      ∃ j m, parsed = some j ∧ jsonMember j "menu" = some (.arr m)) ∧
    (∀ j m, parsed = some j → jsonMember j "menu" = some (.arr m) →
      treeHasNull m = false → (handleJsonImport ids parsed pages).2 = none) ∧
    ((handleJsonImport ids parsed pages).2 ≠ none →
      (handleJsonImport ids parsed pages).1 = pages) := by
  refine ⟨?_, ?_, ?_⟩
  · intro h
    cases parsed with
    | none => simp [handleJsonImport] at h
    | some j =>
      cases j with
      | null => simp [handleJsonImport] at h
      | bool b => simp [handleJsonImport, jsonMember] at h
      | num x => simp [handleJsonImport, jsonMember] at h
      | str sv => simp [handleJsonImport, jsonMember] at h
      | arr xs => simp [handleJsonImport, jsonMember] at h
      | obj fields =>
        simp only [handleJsonImport] at h
        cases hm : jsonMember (.obj fields) "menu" with
        | none => rw [hm] at h; simp at h
        | some v =>
          rw [hm] at h
          cases v with
          | arr m => exact ⟨.obj fields, m, rfl, hm⟩
          | null => simp at h
          | bool b => simp at h
          | num x => simp at h
          | str sv => simp at h
          | obj fs => simp at h
  · intro j m hp hmem hnn
    subst hp
    rcases convert_ok_of_no_null ids (sizeOf m) m (Nat.le_refl _) hnn none 1 0 0 with
      ⟨⟨ps, ctr'⟩, hok⟩
    cases j with
    | null => simp [jsonMember] at hmem
    | bool b => simp [jsonMember] at hmem
    | num x => simp [jsonMember] at hmem
    | str sv => simp [jsonMember] at hmem
    | arr xs => simp [jsonMember] at hmem
    | obj fields =>
      simp only [handleJsonImport, hmem, hok]
  · intro h
    cases parsed with
    | none => rfl
    | some j =>
      cases j with
      | null => rfl
      | bool b => simp [handleJsonImport, jsonMember]
      | num x => simp [handleJsonImport, jsonMember]
      | str sv => simp [handleJsonImport, jsonMember]
      | arr xs => simp [handleJsonImport, jsonMember]
      | obj fields =>
        simp only [handleJsonImport]
        cases hm : jsonMember (.obj fields) "menu" with
        | none => simp
        | some v =>
          cases v with
          | null => simp
          | bool b => simp
          | num x => simp
          | str sv => simp
          | obj fs => simp
          | arr m =>
            cases hc : convertMenuToPages ids m none 1 0 0 with
            | ok pr =>
              exfalso
              apply h
              simp [handleJsonImport, hm, hc]
            | error e => simp [hc]

def c7CexDoc : Json := .obj [("menu", .arr [.null])]

/-- C7 counterexample: the document `{"menu":[null]}` is valid JSON and has
an array field named `menu`, yet the import fails (the conversion throws a
TypeError on the `null` entry, reported as the invalid-JSON error); the
page collection is left unchanged. -/
theorem c7_counterexample :
    jsonMember c7CexDoc "menu" = some (.arr [.null]) ∧
    (handleJsonImport importIds (some c7CexDoc) c4Pages).2 = some invalidJsonMsg ∧
    (handleJsonImport importIds (some c7CexDoc) c4Pages).1 = c4Pages := by
  refine ⟨rfl, ?_, ?_⟩
  · simp [handleJsonImport, jsonMember, convertMenuToPages, Json.isNull, c7CexDoc]
  · simp [handleJsonImport, jsonMember, convertMenuToPages, Json.isNull, c7CexDoc]

theorem c7_witness :
    (handleJsonImport importIds (some (.obj [("menu", .arr [.obj []])])) c4Pages).2 =
      none :=
  (c7_import_failure_contract importIds (some (.obj [("menu", .arr [.obj []])]))
      c4Pages).2.1
    (.obj [("menu", .arr [.obj []])]) [.obj []] rfl rfl
    (by simp [treeHasNull, Json.isNull, itemMenu, jsonMember])

/-! ## Claim C6 -/

theorem LessonPage.level_mk (i t c d : String) (o : Nat) (ty : String) (l : Nat)
    (p : Option String) (ch : List LessonPage) (pg : Option String) (n : Bool) :
    (LessonPage.mk i t c d o ty l p ch pg n).level = l := rfl

theorem LessonPage.id_mk (i t c d : String) (o : Nat) (ty : String) (l : Nat)
    (p : Option String) (ch : List LessonPage) (pg : Option String) (n : Bool) :
    (LessonPage.mk i t c d o ty l p ch pg n).id = i := rfl

theorem LessonPage.parentId_mk (i t c d : String) (o : Nat) (ty : String) (l : Nat)
    (p : Option String) (ch : List LessonPage) (pg : Option String) (n : Bool) :
    (LessonPage.mk i t c d o ty l p ch pg n).parentId = p := rfl

theorem convert_flat (ids : Nat → String) :
    ∀ (items : List Json) (parentId : Option String) (level ctr idx : Nat),
      (∀ it ∈ items, it.isNull = false ∧ itemMenu it = []) →
      ∃ out ctr',
        convertMenuToPages ids items parentId level ctr idx = .ok (out, ctr') ∧
        out.length = items.length ∧
        ∀ pg ∈ out, pg.level = level ∧ pg.parentId = parentId := by
  intro items
  induction items with
  | nil =>
    intro parentId level ctr idx _
    exact ⟨[], ctr, by simp [convertMenuToPages], rfl, by simp⟩
  | cons it rest ih =>
    intro parentId level ctr idx h
    have hit := h it (List.mem_cons_self _ _)
    have hrest : ∀ x ∈ rest, x.isNull = false ∧ itemMenu x = [] :=
      fun x hx => h x (List.mem_cons_of_mem _ hx)
    rcases ih parentId level (ctr + 1) (idx + 1) hrest with
      ⟨out', ctr', hEq, hLen, hProp⟩
    refine ⟨LessonPage.mk (ids ctr)
        (jsFieldString it "title" ("Page " ++ toString (idx + 1)))
        (jsFieldString it "content" "<p>Add your content here...</p>")
        (jsFieldString it "description" "")
        (idx + 1)
        (jsFieldString it "type" "content")
        level parentId []
        (some (jsFieldString it "page" (toString (idx + 1) ++ "-0-0")))
        (jsFieldBool it "innerNode")
        :: out', ctr', ?_, ?_, ?_⟩
    · simp only [convertMenuToPages, hit.1, Bool.false_eq_true, if_false,
        ite_false, hit.2, hEq, List.nil_append, List.singleton_append]
    · simp [hLen]
    · intro pg hpg
      rcases List.mem_cons.mp hpg with rfl | hmem
      · exact ⟨rfl, rfl⟩
      · exact hProp pg hmem

theorem convert_two_level (ids : Nat → String) :
    ∀ (menu : List Json) (ctr idx : Nat),
      (∀ item ∈ menu, item.isNull = false ∧
        ∀ sub ∈ itemMenu item, sub.isNull = false ∧ itemMenu sub = []) →
      ∃ out ctr',
        convertMenuToPages ids menu none 1 ctr idx = .ok (out, ctr') ∧
        (out.filter fun pg => pg.level == 1).length = menu.length ∧
        (out.filter fun pg => pg.level == 2).length =
          (menu.map fun item => (itemMenu item).length).sum ∧
        (∀ pg ∈ out, pg.level = 2 →
          ∃ par ∈ out, par.level = 1 ∧ pg.parentId = some par.id) := by
  intro menu
  induction menu with
  | nil =>
    intro ctr idx _
    refine ⟨[], ctr, by simp [convertMenuToPages], rfl, rfl, ?_⟩
    intro pg hpg
    cases hpg
  | cons item rest ih =>
    intro ctr idx h
    have hitem := h item (List.mem_cons_self _ _)
    have hrest : ∀ x ∈ rest, x.isNull = false ∧
        ∀ sub ∈ itemMenu x, sub.isNull = false ∧ itemMenu sub = [] :=
      fun x hx => h x (List.mem_cons_of_mem _ hx)
    rcases convert_flat ids (itemMenu item) (some (ids ctr)) (1 + 1) (ctr + 1) 0
      hitem.2 with ⟨children, ctr1, hcEq, hcLen, hcProp⟩
    rcases ih ctr1 (idx + 1) hrest with ⟨out', ctr2, hrEq, hr1, hr2, hrPar⟩
    refine ⟨LessonPage.mk (ids ctr)
        (jsFieldString item "title" ("Page " ++ toString (idx + 1)))
        (jsFieldString item "content" "<p>Add your content here...</p>")
        (jsFieldString item "description" "")
        (idx + 1)
        (jsFieldString item "type" "content")
        1 none children
        (some (jsFieldString item "page" (toString (idx + 1) ++ "-0-0")))
        (jsFieldBool item "innerNode")
        :: children ++ out', ctr2, ?_, ?_, ?_, ?_⟩
    · simp only [convertMenuToPages, hitem.1, Bool.false_eq_true, if_false,
        ite_false, hcEq, hrEq, List.singleton_append]
    · have hchf : children.filter (fun pg => pg.level == 1) = [] := by
        refine List.filter_eq_nil_iff.mpr ?_
        intro pg hpg
        have := (hcProp pg hpg).1
        simp [this]
      simp [List.filter_cons, List.filter_append, hchf, hr1, LessonPage.level_mk,
        Nat.add_comm]
    · have hchf : children.filter (fun pg => pg.level == 2) = children := by
        refine List.filter_eq_self.mpr ?_
        intro pg hpg
        have := (hcProp pg hpg).1
        simp [this]
      simp [List.filter_cons, List.filter_append, hchf, hr2, hcLen,
        LessonPage.level_mk, Nat.add_comm]
    · intro pg hpg hlvl
      rcases List.mem_cons.mp hpg with rfl | hmem
      · simp [LessonPage.level_mk] at hlvl
      · rcases List.mem_append.mp hmem with hch | hout
        · refine ⟨_, List.mem_cons_self _ _, rfl, ?_⟩
          rw [(hcProp pg hch).2]
          rfl
        · rcases hrPar pg hout hlvl with ⟨par, hparMem, hparLvl, hparId⟩
          exact ⟨par, List.mem_cons_of_mem _ (List.mem_append_right _ hparMem),
            hparLvl, hparId⟩

/-- C6: importing a well-formed two-level menu document (no `null`
entries, inner entries with no further nesting) succeeds and produces a
page list whose level-1 page count equals the outer array length, whose
level-2 page count equals the sum of the inner array lengths, and in
which every level-2 page's `parentId` is the id of one of the produced
level-1 pages. -/
theorem c6_import_two_level (ids : Nat → String) (menu : List Json)
    (h : ∀ item ∈ menu, item.isNull = false ∧
      ∀ sub ∈ itemMenu item, sub.isNull = false ∧ itemMenu sub = []) :
    ∃ out ctr',
      convertMenuToPages ids menu none 1 0 0 = .ok (out, ctr') ∧
      (out.filter fun pg => pg.level == 1).length = menu.length ∧
      (out.filter fun pg => pg.level == 2).length =
        (menu.map fun item => (itemMenu item).length).sum ∧
      (∀ pg ∈ out, pg.level = 2 →
        ∃ par ∈ out, par.level = 1 ∧ pg.parentId = some par.id) :=
  convert_two_level ids menu 0 0 h

def c6Doc : List Json :=
  [.obj [("title", .str "U1"),
      ("menu", .arr [.obj [], .obj [("title", .str "S2")]])],
   .obj [("title", .str "U2")]]

theorem c6_witness :
    ∃ out ctr',
      convertMenuToPages importIds c6Doc none 1 0 0 = .ok (out, ctr') ∧
      (out.filter fun pg => pg.level == 1).length = c6Doc.length ∧
      (out.filter fun pg => pg.level == 2).length =
        (c6Doc.map fun item => (itemMenu item).length).sum ∧
      (∀ pg ∈ out, pg.level = 2 →
        ∃ par ∈ out, par.level = 1 ∧ pg.parentId = some par.id) :=
  c6_import_two_level importIds c6Doc (by
    intro item hitem
    simp only [c6Doc, List.mem_cons, List.not_mem_nil, or_false] at hitem
    rcases hitem with rfl | rfl
    · refine ⟨rfl, ?_⟩
      intro sub hsub
      have hmenu : itemMenu (Json.obj [("title", Json.str "U1"),
          ("menu", Json.arr [Json.obj [], Json.obj [("title", Json.str "S2")]])]) =
          [Json.obj [], Json.obj [("title", Json.str "S2")]] := rfl
      rw [hmenu] at hsub
      simp only [List.mem_cons, List.not_mem_nil, or_false] at hsub
      rcases hsub with rfl | rfl
      · exact ⟨rfl, rfl⟩
      · exact ⟨rfl, rfl⟩
    · refine ⟨rfl, ?_⟩
      intro sub hsub
      have hmenu : itemMenu (Json.obj [("title", Json.str "U2")]) = [] := rfl
      rw [hmenu] at hsub
      cases hsub)
